import Mathlib

/-!
Verification of the VibeFlare CMS worker (deco-cx/vibecms).

The development shallowly embeds the Cloudflare Worker from the repository:
the request router (`fetchMain`), the helper API (`handleAPI`), the asset
server (`handleAssets`), the page renderer (`handlePageRender` and
`PageTemplate`) and the MCP instruction generator from `src/mcp.ts`
(`generateMCPInstructions`).

Modelling conventions:
- The three managed stores are explicit state: the key-value store and the
  blob store are association lists where the most recent write is consed to
  the front; the relational store is an opaque function `Option String →
  DBOutcome` describing what `DB.prepare(sql).all()` does (success payloads
  or a thrown JavaScript value).
- `request.json()` is modelled by `JsonResult`: a parsed object with string
  fields, or a parse failure carrying the thrown error's message.
- JavaScript string operations are modelled on `List Char`:
  `String.prototype.replace` with a literal pattern replaces the first
  occurrence (`replaceFirst`), `startsWith` is `startsWithB`, `includes` is
  `substrB`, `slice(1)` is `sliceFrom1`.
- The falsiness of the empty string in `x || y` is modelled explicitly
  wherever the source relies on it.
- The source's `fetch` returns the async handlers' promises from inside its
  try block without `await`, so a handler rejection bypasses the outer
  catch: the worker produces no response and the platform reports an
  unhandled exception. `fetchMain` therefore returns
  `Except JsErr (Env × HttpResponse)`, whose `.error` is exactly that
  rejected fetch promise; the catch's `'Internal Server Error'` response is
  dead code for handler failures and is not modelled as reachable.
- `welcomeContent[slug]` is a JavaScript bracket lookup that reaches the
  prototype chain: for a slug naming an `Object.prototype` member
  (`toString`, `constructor`, `valueOf`, ...) it yields the inherited
  function or object — truthy and not a string — modelled by
  `DefaultContent.protoMember`; the page template's subsequent
  `content.includes(...)` on such a value throws a `TypeError`, modelled by
  `JsErr.nonStringIncludes`.
- JSON response bodies built with `Response.json` are modelled structurally
  as field lists (`JVal`); mono-jsx HTML responses are modelled as the
  serialized HTML string, with element structure, attributes and text
  content following the source components (client-only event props are not
  serialized).
-/

namespace VibeCMS

/-- Boolean list-prefix test, modelling JavaScript `String.prototype.startsWith`. -/
def prefixB : List Char → List Char → Bool
  | [], _ => true
  | _ :: _, [] => false
  | a :: as, b :: bs => decide (a = b) && prefixB as bs

/-- Boolean substring occurrence test on character lists, modelling
JavaScript `String.prototype.includes`. -/
def substrListB : List Char → List Char → Bool
  | pat, [] => prefixB pat []
  | pat, c :: rest => prefixB pat (c :: rest) || substrListB pat rest

/-- String form of `substrListB`: `substrB pat s` holds when `pat` occurs
contiguously inside `s`. -/
def substrB (pat s : String) : Bool := substrListB pat.data s.data

/-- String form of `prefixB`, modelling `path.startsWith(pre)`. -/
def startsWithB (s pre : String) : Bool := prefixB pre.data s.data

/-- Replacement of the first occurrence of `pat` by `repl`, modelling
JavaScript `String.prototype.replace` with a string pattern. -/
def replaceFirstL (pat repl : List Char) : List Char → List Char
  | [] => if prefixB pat [] then repl else []
  | c :: rest =>
    if prefixB pat (c :: rest) then repl ++ (c :: rest).drop pat.length
    else c :: replaceFirstL pat repl rest

/-- String form of `replaceFirstL`: `replaceFirst s pat repl` models
`s.replace(pat, repl)`. -/
def replaceFirst (s pat repl : String) : String :=
  ⟨replaceFirstL pat.data repl.data s.data⟩

/-- Model of JavaScript `s.slice(1)`. -/
def sliceFrom1 (s : String) : String := ⟨s.data.drop 1⟩

/-- Association-list lookup with string keys; the front of the list is the
most recent write, so consing a binding models an overwriting `put`. -/
def lookupA {α : Type} : List (String × α) → String → Option α
  | [], _ => none
  | (k, v) :: rest, key => if k = key then some v else lookupA rest key

/-- Structural model of the JSON values appearing in `Response.json` bodies.
`payload` stands for an opaque JSON value passed through from the relational
store (the `results` and `meta` fields). -/
inductive JVal where
  | str : String → JVal
  | bool : Bool → JVal
  | payload : String → JVal
deriving DecidableEq, Repr

/-- Model of an HTTP response body: plain text, a JSON object (field list),
raw bytes from the blob store, or a rendered HTML document. -/
inductive RespBody where
  | text : String → RespBody
  | json : List (String × JVal) → RespBody
  | bytes : List Nat → RespBody
  | html : String → RespBody
deriving DecidableEq, Repr

/-- Model of an HTTP response. -/
structure HttpResponse where
  status : Nat
  body : RespBody
  headers : List (String × String)
deriving DecidableEq, Repr

/-- Extract the HTML document of a rendered page response. -/
def htmlOf : HttpResponse → String
  | ⟨_, .html s, _⟩ => s
  | _ => ""

/-- Stored blob-store object: bytes plus the content type recorded in
`httpMetadata`. -/
structure R2Object where
  body : List Nat
  contentType : String
deriving DecidableEq, Repr

/-- Outcome of `env.DB.prepare(sql).all()`: a success carrying opaque
`results` and `meta` payloads, a thrown `Error` instance carrying its
message, or a thrown non-`Error` value. -/
inductive DBOutcome where
  | ok : String → String → DBOutcome
  | throwErr : String → DBOutcome
  | throwNonErr : DBOutcome

/-- Worker environment: the key-value store (pages), the blob store
(assets) and the relational store's behavior. `db none` is the behavior of
`DB.prepare(undefined)` when the request body lacks a `sql` field. -/
structure Env where
  content : List (String × String)
  bucket : List (String × R2Object)
  db : Option String → DBOutcome

/-- Result of `await request.json()`: a parsed object with string-valued
fields, or a parse failure carrying the thrown error's message. -/
inductive JsonResult where
  | ok : List (String × String) → JsonResult
  | fail : String → JsonResult
deriving DecidableEq, Repr

/-- The JavaScript thrown values that reject a handler's promise. Because
`fetch` returns those promises without `await`, they escape the outer
try/catch and reject the fetch promise itself. `parseErr` is a JSON parse
failure with its message; `putUndefined` is the type error thrown by
`CONTENT.put` when the parsed body has no `content` field; and
`nonStringIncludes` is the `TypeError` thrown by `content.includes(...)`
when the content is an inherited `Object.prototype` member rather than a
string. `nonStringChild` guards the serialization of a non-string JSX
child, which is not reachable through `handlePageRender`. -/
inductive JsErr where
  | parseErr : String → JsErr
  | putUndefined : JsErr
  | nonStringIncludes : JsErr
  | nonStringChild : JsErr
deriving DecidableEq, Repr

/-- Model of an inbound request after URL parsing: method, `url.pathname`,
`url.origin`, the presence of the `edit` and `code` query flags, the
`Content-Type` header, the parsed JSON body, and the raw body bytes. -/
structure Req where
  method : String
  path : String
  origin : String
  hasEdit : Bool
  hasCode : Bool
  contentTypeHeader : Option String
  jsonBody : JsonResult
  rawBody : List Nat

/-- Instruction document from src/mcp.ts generateMCPInstructions. -/
def generateMCPInstructions (baseUrl : String) : String :=
  "# VibeFlare CMS Instructions\n\nYou are interacting with a Cloudflare-native CMS. Here\x27s how to operate it:\n\n## Content Management (KV Storage)\n- **Pages stored with pattern**: \x60page:\x7bslug\x7d\x60\n- **Create/update page**: POST " ++ baseUrl ++ "/api/page/\x7bslug\x7d\n  - Body: \x60\x7b\"content\": \"<h1>Your HTML content</h1>\"\x7d\x60\n  - Example: POST " ++ baseUrl ++ "/api/page/home with \x60\x7b\"content\": \"<h1>Welcome</h1><p>Hello world!</p>\"\x7d\x60\n\n## Structured Data (D1 Database)  \n- **Available tables**: posts, settings, users, comments\n- **Execute SQL**: POST " ++ baseUrl ++ "/api/sql\n  - Body: \x60\x7b\"sql\": \"SELECT * FROM posts WHERE published = 1\"\x7d\x60\n  - Example: POST " ++ baseUrl ++ "/api/sql with \x60\x7b\"sql\": \"INSERT INTO posts (title, slug, content) VALUES (\x27My Post\x27, \x27my-post\x27, \x27Content here\x27)\"\x7d\x60\n\n## Assets (R2 Storage)\n- **Upload file**: POST " ++ baseUrl ++ "/api/upload/\x7bkey\x7d\n  - Body: Binary file data  \n  - Content-Type: Appropriate MIME type (image/jpeg, text/css, etc.)\n  - Example: POST " ++ baseUrl ++ "/api/upload/hero.jpg with JPEG binary data\n- **Access file**: GET " ++ baseUrl ++ "/assets/\x7bkey\x7d\n\n## Inline Editing\n- **Enable edit mode**: Add \x60?edit\x60 to any page URL\n- **Example**: " ++ baseUrl ++ "/about?edit opens the about page in edit mode\n- **Features**: ContentEditable regions, save button, auto-save\n\n## Common Tasks\n\n### Create a homepage:\n\x60\x60\x60bash\nPOST " ++ baseUrl ++ "/api/page/home\n\x7b\"content\": \"<h1>Welcome to My Site</h1><p>This is the homepage content.</p>\"\x7d\n\x60\x60\x60\n\n### Add a blog post to database:\n\x60\x60\x60bash  \nPOST " ++ baseUrl ++ "/api/sql\n\x7b\"sql\": \"INSERT INTO posts (title, slug, content, published) VALUES (\x27My First Post\x27, \x27first-post\x27, \x27Post content here\x27, 1)\"\x7d\n\x60\x60\x60\n\n### Upload a stylesheet:\n\x60\x60\x60bash\nPOST " ++ baseUrl ++ "/api/upload/styles.css\nContent-Type: text/css\n[CSS content as binary]\n\x60\x60\x60\n\n### Update site styling:\n\x60\x60\x60bash\nPOST " ++ baseUrl ++ "/api/page/styles  \n\x7b\"content\": \":root \x7b --color-primary: #ff6b6b; --color-bg: #f8f9fa; \x7d\"\x7d\n\x60\x60\x60\n\n## Error Handling\n- All endpoints return JSON with \x60success\x60 boolean\n- Failed requests include \x60error\x60 field with description\n- SQL errors include query details for debugging\n\n## Security Notes\n- This is an MVP without authentication\n- In production, add Cloudflare Access or API keys\n- Always validate and sanitize user input\n\nRemember: This CMS is designed for agent operation. Feel free to create, modify, and structure content as needed!"

/-- Base theme stylesheet from src/mcp.ts DEFAULT_THEME (after .trim()). -/
def DEFAULT_THEME : String :=
  ":root \x7b\n  --color-primary: #3b82f6;\n  --color-secondary: #64748b;\n  --color-background: #ffffff;\n  --color-surface: #f8fafc;\n  --color-text: #1e293b;\n  --color-text-muted: #64748b;\n  --color-border: #e2e8f0;\n  --color-success: #10b981;\n  --color-warning: #f59e0b;\n  --color-error: #ef4444;\n  \n  --font-family: -apple-system, BlinkMacSystemFont, \"Segoe UI\", Roboto, sans-serif;\n  --font-mono: \"SF Mono\", Monaco, \"Cascadia Code\", \"Roboto Mono\", Consolas, monospace;\n  \n  --spacing-xs: 0.25rem;\n  --spacing-sm: 0.5rem;\n  --spacing-md: 1rem;\n  --spacing-lg: 1.5rem;\n  --spacing-xl: 2rem;\n  \n  --radius-sm: 0.25rem;\n  --radius-md: 0.375rem;\n  --radius-lg: 0.5rem;\n  \n  --shadow-sm: 0 1px 2px 0 rgb(0 0 0 / 0.05);\n  --shadow-md: 0 4px 6px -1px rgb(0 0 0 / 0.1);\n  --shadow-lg: 0 10px 15px -3px rgb(0 0 0 / 0.1);\n\x7d\n\n/* Edit mode styles */\n.edit-mode [contenteditable] \x7b\n  outline: 2px dashed var(--color-primary);\n  outline-offset: 2px;\n  min-height: 1.5rem;\n  padding: var(--spacing-sm);\n  border-radius: var(--radius-sm);\n\x7d\n\n.edit-mode [contenteditable]:focus \x7b\n  outline: 2px solid var(--color-primary);\n  background: var(--color-surface);\n\x7d\n\n.edit-save-button \x7b\n  position: fixed;\n  top: var(--spacing-md);\n  right: var(--spacing-md);\n  background: var(--color-primary);\n  color: white;\n  border: none;\n  padding: var(--spacing-sm) var(--spacing-md);\n  border-radius: var(--radius-md);\n  font-family: var(--font-family);\n  font-weight: 600;\n  cursor: pointer;\n  box-shadow: var(--shadow-md);\n  z-index: 1000;\n\x7d\n\n.edit-save-button:hover \x7b\n  opacity: 0.9;\n\x7d"

/-- Literal before DEFAULT_THEME in the styles template of PageTemplate. -/
def stylesPre : String := "\n    "

/-- Literal between DEFAULT_THEME and customCSS in the styles template. -/
def stylesMid : String := "\n    "

/-- Literal after customCSS in the styles template of PageTemplate. -/
def stylesRest : String := "\n    \n    .edit-bar \x7b \n      position: fixed; top: 0; right: 0; \n      background: var(--color-primary); color: white;\n      padding: 0.5rem 1rem; border-radius: 0 0 0 0.5rem;\n      z-index: 1000; display: flex; gap: 0.5rem; align-items: center;\n    \x7d\n    .btn \x7b \n      background: var(--color-primary); color: white;\n      border: none; padding: 0.5rem 1rem; border-radius: 0.25rem;\n      cursor: pointer; font-size: 0.875rem;\n    \x7d\n    .btn:hover \x7b opacity: 0.9; \x7d\n    .btn-secondary \x7b background: var(--color-secondary); \x7d\n    \n    #monaco-editor \x7b\n      position: fixed;\n      top: 0;\n      left: 0;\n      width: 100vw;\n      height: 100vh;\n      z-index: 999;\n      background: #1e1e1e;\n    \x7d\n    .editor-hidden \x7b display: none; \x7d\n    \n    .container \x7b max-width: 1024px; margin: 0 auto; padding: 2rem; \x7d\n    .mcp-info \x7b\n      background: var(--color-surface);\n      border: 1px solid var(--color-border);\n      border-radius: 0.5rem;\n      padding: 1.5rem;\n      margin: 1rem 0;\n    \x7d\n    h1, h2, h3 \x7b margin-bottom: 1rem; \x7d\n    p \x7b margin-bottom: 1rem; \x7d\n    pre \x7b \n      background: var(--color-surface);\n      padding: 1rem;\n      border-radius: 0.25rem;\n      overflow-x: auto;\n      margin: 1rem 0;\n    \x7d\n  "

/-- Client edit script emitted by PageTemplate in edit or code mode. -/
def editScriptStr : String :=
  "\n    let editor = null;\n    let originalContent = \x27\x27;\n    \n    function saveContent() \x7b\n      const editableContent = document.querySelector(\x27[contenteditable]\x27);\n      const slug = location.pathname === \x27/\x27 ? \x27home\x27 : location.pathname.slice(1);\n      \n      fetch(\x27/api/page/\x27 + slug, \x7b\n        method: \x27POST\x27,\n        headers: \x7b \x27Content-Type\x27: \x27application/json\x27 \x7d,\n        body: JSON.stringify(\x7b content: editableContent.innerHTML \x7d)\n      \x7d)\n      .then(r => r.json())\n      .then(data => \x7b\n        alert(data.success ? \x27Content saved!\x27 : \x27Error: \x27 + data.error);\n      \x7d)\n      .catch(e => alert(\x27Save failed: \x27 + e.message));\n    \x7d\n    \n    function saveCode() \x7b\n      if (!editor) return;\n      const slug = location.pathname === \x27/\x27 ? \x27home\x27 : location.pathname.slice(1);\n      \n      fetch(\x27/api/page/\x27 + slug, \x7b\n        method: \x27POST\x27,\n        headers: \x7b \x27Content-Type\x27: \x27application/json\x27 \x7d,\n        body: JSON.stringify(\x7b content: editor.getValue() \x7d)\n      \x7d)\n      .then(r => r.json())\n      .then(data => \x7b\n        if (data.success) \x7b\n          alert(\x27Code saved! Reloading...\x27);\n          location.reload();\n        \x7d else \x7b\n          alert(\x27Error: \x27 + data.error);\n        \x7d\n      \x7d)\n      .catch(e => alert(\x27Save failed: \x27 + e.message));\n    \x7d\n    \n    function toggleCodeEditor() \x7b\n      const editorDiv = document.getElementById(\x27monaco-editor\x27);\n      const mainContent = document.querySelector(\x27main\x27);\n      \n      if (editorDiv.classList.contains(\x27editor-hidden\x27)) \x7b\n        // Show editor\n        editorDiv.classList.remove(\x27editor-hidden\x27);\n        originalContent = mainContent.innerHTML;\n        \n        // Load Monaco Editor\n        if (!editor) \x7b\n          require.config(\x7b paths: \x7b vs: \x27https://cdn.jsdelivr.net/npm/monaco-editor@0.45.0/min/vs\x27 \x7d\x7d);\n          require([\x27vs/editor/editor.main\x27], function () \x7b\n            editor = monaco.editor.create(document.getElementById(\x27monaco-container\x27), \x7b\n              value: originalContent,\n              language: \x27html\x27,\n              theme: \x27vs-dark\x27,\n              automaticLayout: true,\n              minimap: \x7b enabled: false \x7d,\n              fontSize: 14,\n              wordWrap: \x27on\x27\n            \x7d);\n          \x7d);\n        \x7d else \x7b\n          editor.setValue(originalContent);\n        \x7d\n      \x7d else \x7b\n        // Hide editor\n        editorDiv.classList.add(\x27editor-hidden\x27);\n      \x7d\n    \x7d\n    \n    function closeEditor() \x7b\n      document.getElementById(\x27monaco-editor\x27).classList.add(\x27editor-hidden\x27);\n    \x7d\n  "

/-- Hard-coded default body for slug home (getDefaultPageContent). -/
def homeDefaultContent : String :=
  "\n      <h1>Welcome to VibeFlare</h1>\n      <p>This is your agent-controlled CMS powered by Cloudflare Workers.</p>\n      <p>Add <code>?edit</code> to this URL to start editing, or visit <a href=\"/mcp\">/mcp</a> to see the agent instructions.</p>\n    "

/-- Hard-coded default body for slug about (getDefaultPageContent). -/
def aboutDefaultContent : String :=
  "\n      <h1>About</h1>\n      <p>This page was created automatically. Add <code>?edit</code> to customize it.</p>\n    "

/-- Generic default body literal before the slug (getDefaultPageContent). -/
def genericDefaultPre : String := "\n    <h1>Page: "

/-- Generic default body literal after the slug (getDefaultPageContent). -/
def genericDefaultPost : String := "</h1>\n    <p>This page doesn\x27t exist yet. Add <code>?edit</code> to create content!</p>\n  "

/-- Text of the endpoints pre block in the HomePage component. -/
def homePreText : String :=
  "GET  /mcp                 ‚Üí Get MCP instructions\nGET  /mcp/pages           ‚Üí List all page slugs  \nPOST /api/page/\x7bslug\x7d     ‚Üí Create/update page\nPOST /api/sql             ‚Üí Execute D1 queries\nPOST /api/upload/\x7bkey\x7d    ‚Üí Upload assets to R2\nGET  /assets/\x7bkey\x7d        ‚Üí Access uploaded assets"

/-- Curl example text before the slug in the NotFoundPage component. -/
def notFoundCurlPre : String := "curl -X POST https://your-worker.workers.dev/api/page/"

/-- Curl example text after the slug in the NotFoundPage component. -/
def notFoundCurlPost : String :=
  " \\\n  -H \"Content-Type: application/json\" \\\n  -d \x27\x7b\"content\": \"<h1>New Page</h1><p>Content here</p>\"\x7d\x27"

/-- Member names that a JavaScript bracket lookup on a plain object literal
finds on `Object.prototype` when the object has no own property of that
name: each lookup yields an inherited function (or, for `__proto__`, the
prototype object itself) — a truthy non-string value. -/
def objectProtoKeys : List String :=
  ["constructor", "hasOwnProperty", "isPrototypeOf", "propertyIsEnumerable",
   "toLocaleString", "toString", "valueOf",
   "__defineGetter__", "__defineSetter__", "__lookupGetter__", "__lookupSetter__", "__proto__"]

/-- Value of `welcomeContent[slug] || generic` in `getDefaultPageContent`:
either a string, or an inherited `Object.prototype` member (a function or
object identified by its name, on which string methods are undefined).
Equality of two `protoMember` values with the same name models JavaScript
reference equality of the same inherited member. -/
inductive DefaultContent where
  | str : String → DefaultContent
  | protoMember : String → DefaultContent
deriving DecidableEq, Repr

/-- Generic default body of `getDefaultPageContent` for a slug with neither
an own `welcomeContent` entry nor an inherited member, embedding the slug. -/
def genericDefaultContent (slug : String) : String :=
  genericDefaultPre ++ slug ++ genericDefaultPost

/-- Default content for new pages (`getDefaultPageContent` in the source):
`welcomeContent` has own entries for `home` and `about`; for any other slug
the bracket lookup reaches the prototype chain, so a slug naming an
`Object.prototype` member yields that inherited (truthy, non-string)
member and the `||` fallback is skipped; every remaining slug falls through
to the generic template embedding the slug. -/
def getDefaultPageContent (slug : String) : DefaultContent :=
  if slug = "home" then .str homeDefaultContent
  else if slug = "about" then .str aboutDefaultContent
  else if slug ∈ objectProtoKeys then .protoMember slug
  else .str (genericDefaultContent slug)

/-- The `styles` string assembled by `PageTemplate`: the base theme
stylesheet, then the custom CSS fetched from `page:styles`, then the fixed
component styles. -/
def pageStyles (customCSS : String) : String :=
  stylesPre ++ DEFAULT_THEME ++ stylesMid ++ customCSS ++ stylesRest

/-- Serialized HTML of the `HomePage` component. -/
def homePageHtml : String :=
  "<h1>Welcome to VibeFlare</h1>"
  ++ "<p>This is an MCP-first CMS powered by Cloudflare Workers and mono-jsx. Agents can control content, data, and assets through our API.</p>"
  ++ "<div class=\"mcp-info\"><h2>ü§ñ MCP Endpoints Available</h2><pre>" ++ homePreText ++ "</pre></div>"
  ++ "<div class=\"mcp-info\"><h2>‚úèÔ∏è Dual Edit Modes</h2><p>Add <code>?edit</code> for content editing or <code>?code</code> for source editing.</p><p>Try it: <a href=\"/?edit\">Content Edit</a> | <a href=\"/?code\">Code Edit</a></p></div>"
  ++ "<div class=\"mcp-info\"><h2>üé® Theme System</h2><p>Colors and styling are controlled via CSS variables from theme.json</p></div>"

/-- Serialized HTML of the `NotFoundPage` component for a given slug. -/
def notFoundPageHtml (slug : String) : String :=
  "<h1>Page \"" ++ slug ++ "\" Not Found</h1>"
  ++ "<p>This page doesn\x27t exist yet. You can create it using the MCP API:</p>"
  ++ "<pre>" ++ notFoundCurlPre ++ slug ++ notFoundCurlPost ++ "</pre>"
  ++ "<p>Or <a href=\"/" ++ slug ++ "?edit\">start editing immediately</a></p>"

/-- Serialized HTML of the `EditModeUI` component. -/
def editModeUIHtml : String :=
  "<div class=\"edit-bar\"><button class=\"btn\">Save Content</button><button class=\"btn btn-secondary\">Code Editor</button><span style=\"margin-left: 1rem;\">Edit Mode</span></div>"

/-- Serialized HTML of the `MonacoEditor` component. -/
def monacoEditorHtml : String :=
  "<div id=\"monaco-editor\" class=\"editor-hidden\"><div style=\"position: absolute; top: 10px; right: 10px; z-index: 1001;\"><button class=\"btn\" style=\"margin-right: 10px;\">Save &amp; Reload</button><button class=\"btn btn-secondary\">Close</button></div><div id=\"monaco-container\" style=\"width: 100%; height: 100%;\"></div></div>"

/-- Body chosen by `PageTemplate` for the `main` element, following the
source's conditional chain: the `HomePage` component when the content
equals the home default and the slug is `home`; otherwise, when the content
equals the slug's default, the `&&` evaluates `content.includes(...)` —
which throws a `TypeError` when that default is an inherited
`Object.prototype` member, and otherwise selects the `NotFoundPage`
component exactly when the marker text occurs; any other content is wrapped
in a `div`. The final `protoMember` arm (a non-string JSX child unequal to
the slug's own default) is not reachable through `handlePageRender`. -/
def mainInner (content : DefaultContent) (slug : String) : Except JsErr String :=
  if content = getDefaultPageContent "home" ∧ slug = "home" then .ok homePageHtml
  else if content = getDefaultPageContent slug then
    match content with
    | .protoMember _ => .error .nonStringIncludes
    | .str s =>
      if substrB "doesn\x27t exist yet" s = true then .ok (notFoundPageHtml slug)
      else .ok ("<div>" ++ s ++ "</div>")
  else
    match content with
    | .str s => .ok ("<div>" ++ s ++ "</div>")
    | .protoMember _ => .error .nonStringChild

/-- Head literal of the page template before the slug in the title. -/
def tplHead1 : String :=
  "<html lang=\"en\"><head><meta charSet=\"utf-8\"/><title>VibeFlare CMS - "

/-- Head literal between the title and the style element content. -/
def tplHead2 : String := "</title><style>"

/-- Head literal closing the style element. -/
def tplHead3 : String := "</style>"

/-- Script tags injected in edit or code mode: the Monaco loader and the
inline edit script. -/
def tplHeadScripts : String :=
  "<script src=\"https://cdn.jsdelivr.net/npm/monaco-editor@0.45.0/min/vs/loader.js\"></script><script>"
  ++ editScriptStr ++ "</script>"

/-- Literal closing the head and opening the body. -/
def tplBodyOpen : String := "</head><body>"

/-- Literal opening the content container. -/
def tplContainerOpen : String := "<div class=\"container\">"

/-- Opening tag of the editable `main` element (edit mode, not code mode). -/
def tplMainEditable : String := "<main contenteditable=\"true\">"

/-- Opening tag of the plain `main` element. -/
def tplMainPlain : String := "<main>"

/-- Literal closing main, container, body and html. -/
def tplTail : String := "</main></div></body></html>"

/-- The fixed HTML skeleton of `PageTemplate` serialized around a given
`main`-element body. -/
def renderedTemplate (inner : String) (isEditMode isCodeMode : Bool) (slug customCSS : String) : String :=
  tplHead1 ++ slug ++ tplHead2 ++ pageStyles customCSS ++ tplHead3
  ++ (if isEditMode || isCodeMode then tplHeadScripts else "")
  ++ tplBodyOpen
  ++ (if isEditMode || isCodeMode then editModeUIHtml ++ monacoEditorHtml else "")
  ++ tplContainerOpen
  ++ (if isEditMode && !isCodeMode then tplMainEditable else tplMainPlain)
  ++ inner
  ++ tplTail

/-- The `PageTemplate` component of the source: choosing the `main` body
can throw (see `mainInner`); on success the document is the fixed skeleton
around it. -/
def PageTemplate (content : DefaultContent) (isEditMode isCodeMode : Bool) (slug customCSS : String) :
    Except JsErr String :=
  match mainInner content slug with
  | .error err => .error err
  | .ok inner => .ok (renderedTemplate inner isEditMode isCodeMode slug customCSS)

/-- Slug derivation of `handlePageRender`: the root path maps to `home`,
any other path is taken verbatim with the leading slash stripped. -/
def renderSlug (path : String) : String :=
  if path = "/" then "home" else sliceFrom1 path

/-- Key-value key read by the page renderer for a request path. -/
def renderReadKey (path : String) : String := "page:" ++ renderSlug path

/-- Custom CSS fetched by `handlePageRender`: the value of `page:styles`,
with a missing value (and, via JavaScript falsiness, the empty string)
defaulting to the empty string. -/
def styleFragment (env : Env) : String :=
  match lookupA env.content "page:styles" with
  | some c => c
  | none => ""

/-- Content resolved by `handlePageRender` for a request path: the stored
page as a string, except that a missing value or the empty string (which is
falsy in `content || getDefaultPageContent(slug)`) is replaced by the
default, which may be an inherited `Object.prototype` member. -/
def resolvedContent (env : Env) (path : String) : DefaultContent :=
  match lookupA env.content (renderReadKey path) with
  | some c => if c = "" then getDefaultPageContent (renderSlug path) else .str c
  | none => getDefaultPageContent (renderSlug path)

/-- Response headers of `Response.json`. -/
def jsonHdr : List (String × String) := [("Content-Type", "application/json")]

/-- Response headers of a rendered mono-jsx page. -/
def htmlHdr : List (String × String) := [("Content-Type", "text/html; charset=utf-8")]

/-- Outcome of rendering a resolved content: a 200 HTML response, or the
thrown value rejecting the render promise. -/
def pageResponse (content : DefaultContent) (isEditMode isCodeMode : Bool) (slug customCSS : String) :
    Except JsErr HttpResponse :=
  match PageTemplate content isEditMode isCodeMode slug customCSS with
  | .ok h => .ok ⟨200, .html h, htmlHdr⟩
  | .error err => .error err

/-- The `handlePageRender` function of the source: resolve the slug and the
content, fetch the custom CSS, and return the rendered `PageTemplate`; the
`TypeError` raised while templating a missing proto-member slug rejects the
handler's promise. -/
def handlePageRender (env : Env) (path : String) (isEditMode isCodeMode : Bool) :
    Except JsErr HttpResponse :=
  pageResponse (resolvedContent env path) isEditMode isCodeMode (renderSlug path) (styleFragment env)

/-- The `handleAssets` function of the source: strip the `/assets/` prefix,
fetch the object, and serve its bytes with the stored content type (the
empty string being falsy defaults to `application/octet-stream`) and a
one-year cache directive; a missing object is a plain-text 404. -/
def handleAssets (env : Env) (path : String) : HttpResponse :=
  let key := replaceFirst path "/assets/" ""
  match lookupA env.bucket key with
  | none => ⟨404, .text "Asset not found", []⟩
  | some obj =>
    ⟨200, .bytes obj.body,
     [("Content-Type", if obj.contentType = "" then "application/octet-stream" else obj.contentType),
      ("Cache-Control", "public, max-age=31536000")]⟩

/-- JSON echo of the `sql` field in the failure response of `/api/sql`: an
`undefined` field is dropped by `JSON.stringify`. -/
def sqlEchoField : Option String → List (String × JVal)
  | some s => [("sql", .str s)]
  | none => []

/-- The `handleAPI` function of the source. The three branches: page write
(may throw on a bad body, rejecting the handler promise), raw SQL execution
(its own try does `await` inside, so a thrown value is caught and becomes a
400 JSON error), and asset upload (the missing or empty `Content-Type`
header defaults to `application/octet-stream`). Anything else is a
plain-text 404. -/
def handleAPI (env : Env) (r : Req) (path : String) : Except JsErr (Env × HttpResponse) :=
  let method := r.method
  if startsWithB path "/api/page/" ∧ method = "POST" then
    let slug := replaceFirst path "/api/page/" ""
    match r.jsonBody with
    | .fail m => .error (.parseErr m)
    | .ok fields =>
      match lookupA fields "content" with
      | none => .error .putUndefined
      | some content =>
        .ok ({env with content := ("page:" ++ slug, content) :: env.content},
             ⟨200, .json [("success", .bool true), ("slug", .str slug)], jsonHdr⟩)
  else if path = "/api/sql" ∧ method = "POST" then
    match r.jsonBody with
    | .fail m => .error (.parseErr m)
    | .ok fields =>
      let sqlArg := lookupA fields "sql"
      match env.db sqlArg with
      | .ok results meta =>
        .ok (env, ⟨200, .json [("success", .bool true), ("results", .payload results), ("meta", .payload meta)], jsonHdr⟩)
      | .throwErr m =>
        .ok (env, ⟨400, .json ([("success", .bool false), ("error", .str m)] ++ sqlEchoField sqlArg), jsonHdr⟩)
      | .throwNonErr =>
        .ok (env, ⟨400, .json ([("success", .bool false), ("error", .str "Database error")] ++ sqlEchoField sqlArg), jsonHdr⟩)
  else if startsWithB path "/api/upload/" ∧ method = "POST" then
    let key := replaceFirst path "/api/upload/" ""
    let contentType :=
      match r.contentTypeHeader with
      | some t => if t = "" then "application/octet-stream" else t
      | none => "application/octet-stream"
    .ok ({env with bucket := (key, ⟨r.rawBody, contentType⟩) :: env.bucket},
         ⟨200, .json [("success", .bool true), ("key", .str key)], jsonHdr⟩)
  else
    .ok (env, ⟨404, .text "API endpoint not found", []⟩)

/-- Response of the `/mcp` instruction endpoint. -/
def mcpResp (origin : String) : HttpResponse :=
  ⟨200, .text (generateMCPInstructions origin), [("Content-Type", "text/plain")]⟩

/-- The worker `fetch` entry point of the source: exact path `/mcp` returns
the instruction document synchronously (for any method), `/api/` prefixes
go to `handleAPI`, `/assets/` prefixes to `handleAssets`, and everything
else to page rendering. The source wraps the dispatch in a try/catch whose
catch builds a 500 response, but the handler promises are returned without
`await`, so their rejections bypass that catch: an `.error` result is the
fetch promise rejecting with the thrown value, after which the platform —
not this code — reports an error to the caller. -/
def fetchMain (env : Env) (r : Req) : Except JsErr (Env × HttpResponse) :=
  let path := r.path
  if path = "/mcp" then
    .ok (env, mcpResp r.origin)
  else if startsWithB path "/api/" then
    handleAPI env r path
  else if startsWithB path "/assets/" then
    .ok (env, handleAssets env path)
  else
    match handlePageRender env path r.hasEdit r.hasCode with
    | .ok resp => .ok (env, resp)
    | .error err => .error err

/-- The response the caller receives from the worker, when one exists: a
rejected fetch promise produces none (the platform then shows its own
unhandled-exception error). -/
def respOf : Except JsErr (Env × HttpResponse) → Option HttpResponse
  | .ok p => some p.2
  | .error _ => none

/-- HTML document of a render outcome; a rejected render has none. -/
def htmlOfE : Except JsErr HttpResponse → String
  | .ok resp => htmlOf resp
  | .error _ => ""

set_option maxRecDepth 40000

/-- Appending strings appends their character lists. -/
theorem data_append (a b : String) : (a ++ b).data = a.data ++ b.data := by
  cases a; cases b; rfl

/-- String concatenation is associative. -/
theorem strAppend_assoc (a b c : String) : a ++ b ++ c = a ++ (b ++ c) := by
  cases a with
  | mk ad =>
    cases b with
    | mk bd =>
      cases c with
      | mk cd => exact congrArg String.mk (List.append_assoc ad bd cd)

/-- A list is a Boolean prefix of itself followed by anything. -/
theorem prefixB_append_self : ∀ (p t : List Char), prefixB p (p ++ t) = true
  | [], _ => rfl
  | a :: as, t => by
    simp only [List.cons_append, prefixB, decide_eq_true_eq, Bool.and_eq_true]
    exact ⟨trivial, prefixB_append_self as t⟩

/-- Boolean prefix is transitive. -/
theorem prefixB_trans : ∀ {a b s : List Char},
    prefixB a b = true → prefixB b s = true → prefixB a s = true
  | [], _, _, _, _ => rfl
  | _ :: _, [], _, hab, _ => by simp [prefixB] at hab
  | _ :: _, _ :: _, [], _, hbs => by simp [prefixB] at hbs
  | x :: xs, y :: ys, z :: zs, hab, hbs => by
    simp only [prefixB, Bool.and_eq_true, decide_eq_true_eq] at hab hbs ⊢
    exact ⟨hab.1.trans hbs.1, prefixB_trans hab.2 hbs.2⟩

/-- A pattern occurs in itself followed by anything. -/
theorem substrListB_self_append (m b : List Char) : substrListB m (m ++ b) = true := by
  cases m with
  | nil =>
    cases b with
    | nil => rfl
    | cons c cs => rfl
  | cons x xs =>
    show substrListB (x :: xs) (x :: (xs ++ b)) = true
    simp only [substrListB, Bool.or_eq_true]
    exact Or.inl (prefixB_append_self (x :: xs) b)

/-- Occurrence is preserved by prepending characters. -/
theorem substrListB_append_left : ∀ (a m b : List Char),
    substrListB m (a ++ (m ++ b)) = true
  | [], m, b => substrListB_self_append m b
  | c :: cs, m, b => by
    show substrListB m (c :: (cs ++ (m ++ b))) = true
    simp only [substrListB, Bool.or_eq_true]
    exact Or.inr (substrListB_append_left cs m b)

/-- A string occurs in any surrounding concatenation. -/
theorem substrB_sandwich (a m b : String) : substrB m (a ++ (m ++ b)) = true := by
  cases a with
  | mk ad =>
    cases m with
    | mk md =>
      cases b with
      | mk bd => exact substrListB_append_left ad md bd

/-- A string occurs in anything that factors around it. -/
theorem substrB_of_shape (m s a b : String) (h : s = a ++ (m ++ b)) : substrB m s = true :=
  h ▸ substrB_sandwich a m b

/-- Lookup finds the binding just written. -/
theorem lookupA_cons_self {α : Type} (k : String) (v : α) (rest : List (String × α)) :
    lookupA ((k, v) :: rest) k = some v := by
  simp [lookupA]

/-- Stripping a prefix just appended gives back the remainder. -/
theorem replaceFirst_strip (pre s : String) (hp : pre.data ≠ []) :
    replaceFirst (pre ++ s) pre "" = s := by
  cases pre with
  | mk pd =>
    cases s with
    | mk sd =>
      cases pd with
      | nil => exact absurd rfl hp
      | cons c cs =>
        show String.mk (replaceFirstL (c :: cs) [] ((c :: cs) ++ sd)) = String.mk sd
        refine congrArg String.mk ?_
        show replaceFirstL (c :: cs) [] (c :: (cs ++ sd)) = sd
        rw [replaceFirstL]
        have hpp : prefixB (c :: cs) (c :: (cs ++ sd)) = true :=
          prefixB_append_self (c :: cs) sd
        rw [if_pos hpp]
        simp only [List.nil_append]
        exact List.drop_left (c :: cs) sd

/-- The slug of a non-root path is the path without its leading slash. -/
theorem renderSlug_slash (s : String) (hs : s ≠ "") : renderSlug ("/" ++ s) = s := by
  cases s with
  | mk sd =>
    cases sd with
    | nil => exact absurd rfl hs
    | cons c cs => rfl

/-- The assembled styles occur verbatim inside the serialized skeleton. -/
theorem pageStyles_in_renderedTemplate (inner : String) (e c : Bool) (slug X : String) :
    substrB (pageStyles X) (renderedTemplate inner e c slug X) = true := by
  refine substrB_of_shape (pageStyles X) _
    (tplHead1 ++ slug ++ tplHead2)
    (tplHead3 ++ ((if e || c then tplHeadScripts else "") ++ (tplBodyOpen ++
      ((if e || c then editModeUIHtml ++ monacoEditorHtml else "") ++ (tplContainerOpen ++
        ((if e && !c then tplMainEditable else tplMainPlain) ++ (inner ++ tplTail))))))) ?_
  simp only [renderedTemplate, strAppend_assoc]

/-- Any successfully rendered page contains its environment's spliced
styles. -/
theorem render_ok_contains_styles (env : Env) (p : String) (e c : Bool) (resp : HttpResponse)
    (hok : handlePageRender env p e c = .ok resp) :
    substrB (pageStyles (styleFragment env)) (htmlOf resp) = true := by
  cases hmi : mainInner (resolvedContent env p) (renderSlug p) with
  | error err =>
    rw [show handlePageRender env p e c = .error err from by
      simp only [handlePageRender, pageResponse, PageTemplate, hmi]] at hok
    cases hok
  | ok inner =>
    rw [show handlePageRender env p e c =
        .ok ⟨200, .html (renderedTemplate inner e c (renderSlug p) (styleFragment env)), htmlHdr⟩ from by
      simp only [handlePageRender, pageResponse, PageTemplate, hmi]] at hok
    cases hok
    exact pageStyles_in_renderedTemplate inner e c (renderSlug p) (styleFragment env)

/-- The relational store used in concrete witnesses: every call throws a
non-Error value. -/
def emptyDB : Option String → DBOutcome := fun _ => .throwNonErr

/-- Empty worker environment used in concrete witnesses. -/
def emptyEnv : Env := ⟨[], [], emptyDB⟩

/-- Request for `POST /api/page/{slug}` with a well-formed `{content}` body. -/
def postPageReq (s C : String) : Req :=
  ⟨"POST", "/api/page/" ++ s, "", false, false, none, .ok [("content", C)], []⟩

/-- Request for `POST /api/upload/{key}` with raw body bytes and an optional
`Content-Type` header. -/
def uploadReq (k : String) (B : List Nat) (ct : Option String) : Req :=
  ⟨"POST", "/api/upload/" ++ k, "", false, false, ct, .ok [], B⟩

/-- Request for `GET /assets/{key}`. -/
def assetGetReq (k : String) : Req :=
  ⟨"GET", "/assets/" ++ k, "", false, false, none, .ok [], []⟩

/-- Environment after the page write `POST /api/page/{slug}` stores the
content under the prefixed key. -/
def pagePutEnv (env : Env) (s C : String) : Env :=
  {env with content := ("page:" ++ s, C) :: env.content}

/-- Environment after `POST /api/upload/{key}` stores the bytes with the
resolved content type. -/
def uploadPutEnv (env : Env) (k : String) (B : List Nat) (ct : String) : Env :=
  {env with bucket := (k, ⟨B, ct⟩) :: env.bucket}

/-- Success response of the page-write endpoint. -/
def pageOkResp (slug : String) : HttpResponse :=
  ⟨200, .json [("success", .bool true), ("slug", .str slug)], jsonHdr⟩

/-- Success response of the upload endpoint. -/
def uploadOkResp (key : String) : HttpResponse :=
  ⟨200, .json [("success", .bool true), ("key", .str key)], jsonHdr⟩

/-- Failure response of the SQL endpoint for a present `sql` field. -/
def sqlErrResp (err sql : String) : HttpResponse :=
  ⟨400, .json [("success", .bool false), ("error", .str err), ("sql", .str sql)], jsonHdr⟩

/-- C2: for every origin, two calls to the `/mcp` instruction endpoint with
the same origin produce byte-identical instruction documents — the response
depends only on the origin (not on the stores, the method, the flags, the
headers or the body), and its body is the pure instruction text. -/
theorem c2_mcp_deterministic (e1 e2 : Env) (r1 r2 : Req)
    (h1 : r1.path = "/mcp") (h2 : r2.path = "/mcp") (ho : r1.origin = r2.origin) :
    fetchMain e1 r1 = .ok (e1, mcpResp r1.origin) ∧
    fetchMain e2 r2 = .ok (e2, mcpResp r1.origin) ∧
    (mcpResp r1.origin).body = .text (generateMCPInstructions r1.origin) := by
  refine ⟨?_, ?_, rfl⟩
  · simp [fetchMain, h1]
  · simp [fetchMain, h2, ho]

/-- C2 witness: two maximally different requests and environments with the
same origin get the same instruction response. -/
theorem c2_mcp_deterministic_witness :
    fetchMain emptyEnv ⟨"GET", "/mcp", "https://a.example", false, false, none, .ok [], []⟩ =
      .ok (emptyEnv, mcpResp "https://a.example") ∧
    fetchMain ⟨[("page:home", "x")], [("k", ⟨[1], "text/css"⟩)], fun _ => .throwErr "boom"⟩
      ⟨"POST", "/mcp", "https://a.example", true, true, some "text/plain", .fail "bad", [9]⟩ =
      .ok (⟨[("page:home", "x")], [("k", ⟨[1], "text/css"⟩)], fun _ => .throwErr "boom"⟩,
           mcpResp "https://a.example") ∧
    (mcpResp "https://a.example").body = .text (generateMCPInstructions "https://a.example") :=
  c2_mcp_deterministic _ _ _ _ rfl rfl rfl

/-- C8 counterexample: a `POST` request to the exact path `/mcp` is not
answered with a not-found or method-not-allowed response; it receives the
full instruction document with status 200, so the router does dispatch
non-GET `/mcp` requests to the instruction generator. -/
theorem c8_non_get_mcp_counterexample :
    fetchMain emptyEnv ⟨"POST", "/mcp", "https://example.com", false, false, none, .ok [], []⟩ =
      .ok (emptyEnv, mcpResp "https://example.com") ∧
    (mcpResp "https://example.com").status = 200 ∧
    (mcpResp "https://example.com").body = .text (generateMCPInstructions "https://example.com") :=
  ⟨rfl, rfl, rfl⟩

/-- C8 amended: the router dispatches every request whose path is exactly
`/mcp` to the instruction generator regardless of its method — the method
is ignored uniformly, and every such request receives the 200 text/plain
instruction document for its origin. -/
theorem c8_mcp_ignores_method (env : Env) (r : Req) (h : r.path = "/mcp") :
    fetchMain env r = .ok (env, mcpResp r.origin) := by
  simp [fetchMain, h]

/-- C8 witness: a DELETE request to `/mcp` receives the instruction
document. -/
theorem c8_mcp_ignores_method_witness :
    fetchMain emptyEnv ⟨"DELETE", "/mcp", "https://w.example", false, false, none, .ok [], []⟩ =
      .ok (emptyEnv, mcpResp "https://w.example") :=
  c8_mcp_ignores_method emptyEnv _ rfl

/-- C9: storage keys are the input strings used verbatim with a fixed
prefix: the page-write slug is the path after `/api/page/`, stored under
`page:{slug}`; the upload and asset keys are the path remainders used with
no prefix; the render slug is the path without its leading slash (root is
`home`) read from `page:{slug}`; so any two paths deriving the same slug
alias the same stored page. -/
theorem c9_verbatim_storage_keys :
    (∀ s : String, replaceFirst ("/api/page/" ++ s) "/api/page/" "" = s) ∧
    (∀ k : String, replaceFirst ("/api/upload/" ++ k) "/api/upload/" "" = k) ∧
    (∀ k : String, replaceFirst ("/assets/" ++ k) "/assets/" "" = k) ∧
    renderSlug "/" = "home" ∧
    (∀ s : String, s ≠ "" → renderSlug ("/" ++ s) = s) ∧
    (∀ (env : Env) (s C : String),
      fetchMain env (postPageReq s C) = .ok (pagePutEnv env s C, pageOkResp s)) ∧
    (∀ p : String, renderReadKey p = "page:" ++ renderSlug p) ∧
    (∀ p1 p2 : String, renderSlug p1 = renderSlug p2 → renderReadKey p1 = renderReadKey p2) := by
  refine ⟨fun s => replaceFirst_strip _ s (by decide),
         fun k => replaceFirst_strip _ k (by decide),
         fun k => replaceFirst_strip _ k (by decide),
         rfl,
         renderSlug_slash,
         ?_,
         fun p => rfl,
         fun p1 p2 h => by simp only [renderReadKey, h]⟩
  intro env s C
  obtain ⟨sd⟩ := s
  rfl

/-- C9 witness: the key computations at concrete inputs. -/
theorem c9_verbatim_storage_keys_witness :
    replaceFirst "/api/page/home" "/api/page/" "" = "home" ∧
    renderSlug "/docs" = "docs" ∧
    fetchMain emptyEnv (postPageReq "docs" "<p>x</p>") =
      .ok (pagePutEnv emptyEnv "docs" "<p>x</p>", pageOkResp "docs") :=
  ⟨c9_verbatim_storage_keys.1 "home",
   c9_verbatim_storage_keys.2.2.2.2.1 "docs" (by decide),
   c9_verbatim_storage_keys.2.2.2.2.2.1 emptyEnv "docs" "<p>x</p>"⟩

/-- C3 counterexample: the relational store can fail by throwing an `Error`
whose message is empty; the endpoint then returns 400 `{success:false,
error, sql}` with `error` equal to the empty string, so the claim that the
`error` field is always non-empty fails. -/
theorem c3_empty_error_counterexample :
    fetchMain ⟨[], [], fun _ => .throwErr ""⟩
      ⟨"POST", "/api/sql", "", false, false, none, .ok [("sql", "SELEC BAD")], []⟩ =
      .ok (⟨[], [], fun _ => .throwErr ""⟩, sqlErrResp "" "SELEC BAD") ∧
    sqlErrResp "" "SELEC BAD" =
      ⟨400, .json [("success", .bool false), ("error", .str ""), ("sql", .str "SELEC BAD")], jsonHdr⟩ :=
  ⟨rfl, rfl⟩

/-- C3 amended: whenever executing the `sql` string throws, `POST /api/sql`
returns HTTP 400 with JSON `{success:false, error, sql}` where `sql` echoes
the input and `error` is the thrown `Error`'s message (so non-empty exactly
when that message is) or the non-empty fixed string `Database error` for a
non-`Error` throw; the branch's own try awaits inside, so it catches the
throw and no unhandled fault reaches the caller. -/
theorem c3_sql_failure_reported (env : Env) (r : Req)
    (fields : List (String × String)) (s : String)
    (hpath : r.path = "/api/sql") (hm : r.method = "POST")
    (hb : r.jsonBody = .ok fields) (hs : lookupA fields "sql" = some s) :
    (∀ m, env.db (some s) = .throwErr m → fetchMain env r = .ok (env, sqlErrResp m s)) ∧
    (env.db (some s) = .throwNonErr → fetchMain env r = .ok (env, sqlErrResp "Database error" s)) := by
  have g1 : startsWithB "/api/sql" "/api/page/" = false := rfl
  have g2 : startsWithB "/api/sql" "/api/" = true := rfl
  constructor
  · intro m hdb
    simp [fetchMain, handleAPI, hpath, hm, hb, hs, hdb, g1, g2, sqlErrResp, sqlEchoField]
  · intro hdb
    simp [fetchMain, handleAPI, hpath, hm, hb, hs, hdb, g1, g2, sqlErrResp, sqlEchoField]

/-- C3 witness: a concrete store that throws a syntax `Error` on the bad
statement yields the 400 error echo. -/
theorem c3_sql_failure_reported_witness :
    fetchMain
      ⟨[], [], fun q => if q = some "SELEC 1" then .throwErr "near SELEC: syntax error" else .ok "[]" "ok"⟩
      ⟨"POST", "/api/sql", "", false, false, none, .ok [("sql", "SELEC 1")], []⟩ =
      .ok (⟨[], [], fun q => if q = some "SELEC 1" then .throwErr "near SELEC: syntax error" else .ok "[]" "ok"⟩,
           sqlErrResp "near SELEC: syntax error" "SELEC 1") :=
  (c3_sql_failure_reported _ _ [("sql", "SELEC 1")] "SELEC 1" rfl rfl rfl rfl).1
    "near SELEC: syntax error" rfl

/-- C7 counterexample: a `POST /api/page/{slug}` whose body is malformed
JSON rejects the fetch promise with the parse error — the worker produces
no response at all, so there is no HTTP 500 (or 400) response carrying the
underlying error message, refuting the claim that such a response is
returned. -/
theorem c7_unhandled_rejection_counterexample :
    fetchMain emptyEnv
      ⟨"POST", "/api/page/x", "", false, false, none, .fail "Unexpected end of JSON input", []⟩ =
      .error (.parseErr "Unexpected end of JSON input") ∧
    respOf (fetchMain emptyEnv
      ⟨"POST", "/api/page/x", "", false, false, none, .fail "Unexpected end of JSON input", []⟩) =
      none :=
  ⟨rfl, rfl⟩

/-- C7 amended: for every `POST /api/page/{slug}` whose body is malformed
JSON or whose parsed body lacks the `content` field, the handler throws and
— because `fetch` returns the handler promise without `await` — the outer
catch is bypassed: the fetch promise rejects with the underlying error, the
worker builds no response (in particular no `{success:true}` response and
not the catch's `'Internal Server Error'` text), and the caller sees the
platform's unhandled-exception error instead. -/
theorem c7_bad_page_body_rejects (env : Env) (r : Req)
    (hpre : startsWithB r.path "/api/page/" = true) (hm : r.method = "POST") :
    (∀ m, r.jsonBody = .fail m → fetchMain env r = .error (.parseErr m)) ∧
    (∀ fields, r.jsonBody = .ok fields → lookupA fields "content" = none →
      fetchMain env r = .error .putUndefined) := by
  have hne : ¬(r.path = "/mcp") := by
    intro h
    rw [h] at hpre
    exact absurd hpre (by decide)
  have hapi : startsWithB r.path "/api/" = true := by
    unfold startsWithB at hpre ⊢
    exact prefixB_trans (by decide) hpre
  constructor
  · intro m hbody
    simp [fetchMain, handleAPI, hne, hapi, hpre, hm, hbody]
  · intro fields hbody hc
    simp [fetchMain, handleAPI, hne, hapi, hpre, hm, hbody, hc]

/-- C7 witness: both failure shapes at concrete requests reject the fetch
promise with the underlying thrown value. -/
theorem c7_bad_page_body_rejects_witness :
    fetchMain emptyEnv ⟨"POST", "/api/page/a", "", false, false, none, .fail "boom", []⟩ =
      .error (.parseErr "boom") ∧
    fetchMain emptyEnv ⟨"POST", "/api/page/a", "", false, false, none, .ok [("title", "t")], []⟩ =
      .error .putUndefined :=
  ⟨(c7_bad_page_body_rejects emptyEnv _ (by decide) rfl).1 "boom" rfl,
   (c7_bad_page_body_rejects emptyEnv _ (by decide) rfl).2 [("title", "t")] rfl rfl⟩

/-- C4 counterexample: uploading with an empty `Content-Type` header value
succeeds, but the subsequent asset read serves `application/octet-stream`
rather than the supplied content-type string, because the empty string is
falsy in both the upload default and the read default. -/
theorem c4_empty_content_type_counterexample :
    fetchMain emptyEnv (uploadReq "logo" [7, 7] (some "")) =
      .ok (uploadPutEnv emptyEnv "logo" [7, 7] "application/octet-stream", uploadOkResp "logo") ∧
    fetchMain (uploadPutEnv emptyEnv "logo" [7, 7] "application/octet-stream") (assetGetReq "logo") =
      .ok (uploadPutEnv emptyEnv "logo" [7, 7] "application/octet-stream",
        ⟨200, .bytes [7, 7],
         [("Content-Type", "application/octet-stream"),
          ("Cache-Control", "public, max-age=31536000")]⟩) ∧
    ("application/octet-stream" : String) ≠ "" :=
  ⟨rfl, rfl, by decide⟩

/-- C4 amended: for every key, byte payload and non-empty content type, a
`POST /api/upload/{key}` stores the bytes with that content type and
returns `{success:true, key}`, and a subsequent `GET /assets/{key}` returns
status 200 with exactly those bytes, that `Content-Type` header, and the
one-year cache directive; an empty content-type string is replaced by
`application/octet-stream`. -/
theorem c4_upload_asset_roundtrip (env : Env) (k : String) (B : List Nat)
    (T : String) (hT : T ≠ "") :
    fetchMain env (uploadReq k B (some T)) = .ok (uploadPutEnv env k B T, uploadOkResp k) ∧
    fetchMain (uploadPutEnv env k B T) (assetGetReq k) =
      .ok (uploadPutEnv env k B T,
        ⟨200, .bytes B,
         [("Content-Type", T), ("Cache-Control", "public, max-age=31536000")]⟩) := by
  obtain ⟨kd⟩ := k
  constructor
  · have hfe : fetchMain env (uploadReq ⟨kd⟩ B (some T)) =
        .ok ({env with bucket :=
                (⟨kd⟩, ⟨B, if T = "" then "application/octet-stream" else T⟩) :: env.bucket},
             uploadOkResp ⟨kd⟩) := rfl
    rw [hfe, if_neg hT]
    rfl
  · have hkey : replaceFirst ("/assets/" ++ ⟨kd⟩) "/assets/" "" = (⟨kd⟩ : String) :=
      replaceFirst_strip "/assets/" ⟨kd⟩ (by decide)
    show Except.ok (uploadPutEnv env ⟨kd⟩ B T, handleAssets (uploadPutEnv env ⟨kd⟩ B T) ("/assets/" ++ ⟨kd⟩)) = _
    unfold handleAssets
    rw [hkey]
    dsimp only [uploadPutEnv]
    rw [lookupA_cons_self]
    simp [if_neg hT]

/-- C4 witness: a concrete CSS upload round-trips bytes and content type. -/
theorem c4_upload_asset_roundtrip_witness :
    fetchMain emptyEnv (uploadReq "styles.css" [104, 105] (some "text/css")) =
      .ok (uploadPutEnv emptyEnv "styles.css" [104, 105] "text/css", uploadOkResp "styles.css") ∧
    fetchMain (uploadPutEnv emptyEnv "styles.css" [104, 105] "text/css") (assetGetReq "styles.css") =
      .ok (uploadPutEnv emptyEnv "styles.css" [104, 105] "text/css",
        ⟨200, .bytes [104, 105],
         [("Content-Type", "text/css"), ("Cache-Control", "public, max-age=31536000")]⟩) :=
  c4_upload_asset_roundtrip emptyEnv "styles.css" [104, 105] "text/css" (by decide)

/-- Concrete CSS fragment used in the C5 counterexample. -/
def cssX5 : String := ":root \x7b --color-primary: #123456; \x7d"

/-- C5 counterexample: after writing a CSS fragment to `page:styles`, the
subsequent render of `/toString` (a slug naming an `Object.prototype`
member, with no stored page) throws while templating and rejects the
promise: that render produces no document at all, so it does not include
the fragment in any emitted style content, refuting 'every subsequent page
render (for any slug) includes X'. -/
theorem c5_proto_render_no_styles_counterexample :
    fetchMain emptyEnv (postPageReq "styles" cssX5) =
      .ok (pagePutEnv emptyEnv "styles" cssX5, pageOkResp "styles") ∧
    handlePageRender (pagePutEnv emptyEnv "styles" cssX5) "/toString" false false =
      .error .nonStringIncludes ∧
    substrB cssX5
      (htmlOfE (handlePageRender (pagePutEnv emptyEnv "styles" cssX5) "/toString" false false)) =
      false :=
  ⟨rfl, rfl, by decide⟩

/-- C5 amended: the styles template splices the custom CSS right after the
base theme stylesheet; writing `page:styles` through the page API succeeds
and stores the CSS; every subsequent render that succeeds — any path whose
slug has a stored non-empty page or does not name an `Object.prototype`
member — contains the spliced styles (hence the written CSS) in its emitted
document; when `page:styles` is absent the empty string is spliced instead;
renders of missing proto-member slugs throw and emit no styled document. -/
theorem c5_styles_roundtrip :
    (∀ X : String, pageStyles X = stylesPre ++ DEFAULT_THEME ++ stylesMid ++ X ++ stylesRest) ∧
    (∀ (env : Env) (X : String),
      fetchMain env (postPageReq "styles" X) =
        .ok (pagePutEnv env "styles" X, pageOkResp "styles")) ∧
    (∀ (env : Env) (X p : String) (e c : Bool) (resp : HttpResponse),
      handlePageRender (pagePutEnv env "styles" X) p e c = .ok resp →
      substrB (pageStyles X) (htmlOf resp) = true) ∧
    (∀ (env : Env) (p : String) (e c : Bool),
      lookupA env.content "page:styles" = none →
      handlePageRender env p e c = pageResponse (resolvedContent env p) e c (renderSlug p) "") := by
  refine ⟨fun X => rfl, fun env X => rfl, ?_, ?_⟩
  · intro env X p e c resp hok
    have hsf : styleFragment (pagePutEnv env "styles" X) = X := by
      show (match lookupA (("page:styles", X) :: env.content) "page:styles" with
            | some c => c
            | none => "") = X
      rw [lookupA_cons_self]
    have := render_ok_contains_styles (pagePutEnv env "styles" X) p e c resp hok
    rw [hsf] at this
    exact this
  · intro env p e c hnone
    simp only [handlePageRender, styleFragment, hnone]

/-- Concrete CSS fragment used in the C5 witness. -/
def cssW : String := ":root \x7b --x: 1; \x7d"

/-- C5 witness: a concrete CSS write succeeds, a concrete successful render
of another slug contains the spliced styles, and an empty store splices the
empty string. -/
theorem c5_styles_roundtrip_witness :
    fetchMain emptyEnv (postPageReq "styles" cssW) =
      .ok (pagePutEnv emptyEnv "styles" cssW, pageOkResp "styles") ∧
    substrB (pageStyles cssW)
      (htmlOf ⟨200, .html (renderedTemplate (notFoundPageHtml "docs") false false "docs" cssW),
               htmlHdr⟩) = true ∧
    handlePageRender emptyEnv "/docs" false false =
      pageResponse (resolvedContent emptyEnv "/docs") false false (renderSlug "/docs") "" :=
  ⟨c5_styles_roundtrip.2.1 emptyEnv cssW,
   c5_styles_roundtrip.2.2.1 emptyEnv cssW "/docs" false false
     ⟨200, .html (renderedTemplate (notFoundPageHtml "docs") false false "docs" cssW), htmlHdr⟩
     rfl,
   c5_styles_roundtrip.2.2.2 emptyEnv "/docs" false false rfl⟩

end VibeCMS
